import Mathlib

/-!
Shallow embedding of the file-backed cart store (`Cart` model,
src/unnamed/part_002) of the mern-backend repository, together with proofs
about its behaviour.

The JavaScript source keeps one JSON document (`data/cart.json`) holding
`{ products: [{id, quantity}, ...], totalPrice }` and exposes three static
operations:

* `addProduct(id, productPrice)` - read the file (missing / empty /
  unparsable content falls back to the empty cart, parse errors are caught
  and logged), increment the quantity of the existing product with the same
  id or push `{id, quantity: 1}`, add the price to `totalPrice`, and write
  the whole document back (write errors are only logged).
* `deleteProduct(id, productPrice)` - read the file (a read error returns
  silently; `JSON.parse` is NOT guarded, so unparsable or empty content
  throws), return silently when the id is absent, otherwise drop every
  product with that id, subtract `productPrice * products[i].qty` from
  `totalPrice` (note: the products only carry a `quantity` field, never
  `qty`), and write the document back (write errors are only logged).
* `getCart(cb)` - read the file and hand the parsed cart to the callback;
  a missing or empty file and parse failures all yield the empty cart.

JavaScript numbers are modelled as rationals; `NaN` and `null` are given
their own constructors because the arithmetic in `deleteProduct` produces
`NaN` (via the `qty` access) and `JSON.stringify` turns `NaN` into `null`.
-/

namespace MernCart

/-- The values the cart's `totalPrice` slot (and JS numeric expressions in
general) can take at run time: a finite number, `NaN`, or `null` (the result
of re-parsing a serialized `NaN`).  Finite doubles are modelled as rationals. -/
inductive JsVal where
  | nan : JsVal
  | null : JsVal
  | num (q : ℚ) : JsVal
deriving DecidableEq

/-- JS `ToNumber` on the values above: `null` converts to `0`, `NaN` stays
`NaN`.  This is the coercion the binary arithmetic operators apply. -/
def JsVal.toNumber : JsVal → JsVal
  | .null => .num 0
  | v => v

/-- JS binary `+` restricted to the values above (no strings are involved in
the cart arithmetic): both operands go through `ToNumber`; `NaN` is
absorbing. -/
def jsAdd (a b : JsVal) : JsVal :=
  match a.toNumber, b.toNumber with
  | .num x, .num y => .num (x + y)
  | _, _ => .nan

/-- JS binary `-` on the values above. -/
def jsSub (a b : JsVal) : JsVal :=
  match a.toNumber, b.toNumber with
  | .num x, .num y => .num (x - y)
  | _, _ => .nan

/-- JS binary `*` on the values above. -/
def jsMul (a b : JsVal) : JsVal :=
  match a.toNumber, b.toNumber with
  | .num x, .num y => .num (x * y)
  | _, _ => .nan

/-- A cart line item as created by `addProduct` and as stored in the
document: an object with exactly the fields `id` and `quantity`, both JS
numbers (modelled as rationals). -/
structure Product where
  id : ℚ
  quantity : ℚ
deriving DecidableEq

/-- JS member access on a cart product object.  The objects carry exactly
the fields `id` and `quantity` (they are built as `{id: id, quantity: 1}` or
by copying such an object), so access to any other name - in particular the
`.qty` access in `deleteProduct` - yields `undefined`, modelled as `none`. -/
def Product.memberAccess (p : Product) : String → Option JsVal
  | "id" => some (.num p.id)
  | "quantity" => some (.num p.quantity)
  | _ => none

/-- JS `ToNumber` applied to a possibly-`undefined` member access:
`undefined` converts to `NaN`. -/
def toNumberOpt : Option JsVal → JsVal
  | none => .nan
  | some v => v.toNumber

/-- The in-memory cart value: the parsed `{products, totalPrice}` document. -/
structure Cart where
  products : List Product
  totalPrice : JsVal
deriving DecidableEq

/-- The default cart used when the document is missing, empty, or (on the
guarded paths) unparsable: `{ products: [], totalPrice: 0 }`. -/
def emptyCart : Cart := { products := [], totalPrice := .num 0 }

/-- The in-memory update `addProduct` performs on the cart it read
(src/unnamed/part_002 lines 23-40): find the first product with the given
id (`findIndex`), and either bump its quantity in place or push
`{id, quantity: 1}`; then add `+productPrice` to `totalPrice` (the unary `+`
is the identity on a number). -/
def addToCart (id productPrice : ℚ) (cart : Cart) : Cart :=
  let existingProductIndex := cart.products.findIdx? fun prod => prod.id == id
  match existingProductIndex with
  | some i =>
    match cart.products[i]? with
    | some existingProduct =>
      let updatedProduct := { existingProduct with
                              quantity := existingProduct.quantity + 1 }
      { products := cart.products.set i updatedProduct,
        totalPrice := jsAdd cart.totalPrice (.num productPrice) }
    | none =>
      { products := cart.products ++ [{ id := id, quantity := 1 }],
        totalPrice := jsAdd cart.totalPrice (.num productPrice) }
  | none =>
    { products := cart.products ++ [{ id := id, quantity := 1 }],
      totalPrice := jsAdd cart.totalPrice (.num productPrice) }

/-- The in-memory update `deleteProduct` performs on the cart it parsed
(src/unnamed/part_002 lines 56-70).  `none` models the early `return` when
`findIndex` yields `-1` (no write happens).  Otherwise every product with
the id is filtered out and `productPrice * products[productIndex].qty` is
subtracted from `totalPrice`; the `.qty` member is absent from the product
objects (they carry `quantity`), so the product of the multiplication is
`NaN`. -/
def deleteFromCart (id productPrice : ℚ) (cart : Cart) : Option Cart :=
  match cart.products.findIdx? (fun prod => prod.id == id) with
  | none => none
  | some productIndex =>
    let productQty : Option JsVal :=
      match cart.products[productIndex]? with
      | some prod => prod.memberAccess "qty"
      | none => none
    some { products := cart.products.filter fun prod => !(prod.id == id),
           totalPrice :=
             jsSub cart.totalPrice
               (jsMul (.num productPrice) (toNumberOpt productQty)) }

/-! ### The backing file and the complete operations

The operations are asynchronous in the source; each one is a single
read-then-act cycle, so it is modelled as a function of the file state it
reads and of the outcome of its (at most one) `fs.writeFile` call. -/

/-- The state of the backing document `data/cart.json`, classified exactly by
the distinctions the source code makes: the read fails (file absent), the
file is empty, the content parses to a cart value, or `JSON.parse` throws. -/
inductive Doc where
  | absent : Doc
  | empty : Doc
  | stored (cart : Cart) : Doc
  | garbage : Doc
deriving DecidableEq

/-- Whether the single `fs.writeFile` call of a mutating operation succeeds
or reports an error to its callback. -/
inductive WriteResult where
  | ok : WriteResult
  | failed : WriteResult
deriving DecidableEq

/-- What one operation does, as far as it is observable: the file state it
leaves behind, how many `fs.writeFile` calls it issued, whether an exception
escaped the operation (none of the source callbacks rethrow on purpose; only
the unguarded `JSON.parse` in `deleteProduct` can throw), and whether it
logged an error with `console.log`. -/
structure Outcome where
  doc : Doc
  writeAttempts : ℕ
  threw : Bool
  logged : Bool
deriving DecidableEq

/-- `JSON.stringify` on the cart's `totalPrice` slot: `NaN` has no JSON
representation and serializes as `null`; finite numbers and `null` survive
unchanged. -/
def JsVal.serialize : JsVal → JsVal
  | .nan => .null
  | v => v

/-- The file state produced by `fs.writeFile(p, JSON.stringify(cart))` when
the write succeeds: the document now parses back to the written cart, with
`NaN` having turned into `null`.  Products (numeric `id` and `quantity`)
serialize exactly. -/
def writeCart (cart : Cart) : Doc :=
  .stored { cart with totalPrice := cart.totalPrice.serialize }

/-- The cart value the `addProduct` callback works with
(src/unnamed/part_002 lines 9-21): the default empty cart on a read error or
an empty file, the parsed content otherwise, and - because the parse is
wrapped in try/catch - again the empty cart when parsing throws. -/
def readCartLenient : Doc → Cart
  | .stored cart => cart
  | _ => emptyCart

/-- Whether the read path hit a caught parse failure (the only case
`addProduct` and `getCart` log about on the read side). -/
def parseFailed : Doc → Bool
  | .garbage => true
  | _ => false

/-- `Cart.addProduct(id, productPrice)` as a whole: read leniently, update
in memory, write the full document back.  A write failure is only logged;
the operation never throws and never retries. -/
def addProductOp (id productPrice : ℚ) (d : Doc) (wr : WriteResult) : Outcome :=
  let cart' := addToCart id productPrice (readCartLenient d)
  match wr with
  | .ok =>
    { doc := writeCart cart', writeAttempts := 1, threw := false,
      logged := parseFailed d }
  | .failed =>
    { doc := d, writeAttempts := 1, threw := false, logged := true }

/-- `Cart.deleteProduct(id, productPrice)` as a whole.  A read error returns
silently; `JSON.parse` is unguarded, so an empty or unparsable file throws
(uncaught) before any write; an absent id returns silently before any
write; otherwise the updated document is written, and a write failure is
only logged. -/
def deleteProductOp (id productPrice : ℚ) (d : Doc) (wr : WriteResult) :
    Outcome :=
  match d with
  | .absent =>
    { doc := d, writeAttempts := 0, threw := false, logged := false }
  | .empty =>
    { doc := d, writeAttempts := 0, threw := true, logged := false }
  | .garbage =>
    { doc := d, writeAttempts := 0, threw := true, logged := false }
  | .stored cart =>
    match deleteFromCart id productPrice cart with
    | none =>
      { doc := d, writeAttempts := 0, threw := false, logged := false }
    | some cart' =>
      match wr with
      | .ok =>
        { doc := writeCart cart', writeAttempts := 1, threw := false,
          logged := false }
      | .failed =>
        { doc := d, writeAttempts := 1, threw := false, logged := true }

/-- `Cart.getCart(cb)` as a whole: the outcome (read-only) together with the
cart value delivered to the callback. -/
def getCartOp (d : Doc) : Outcome × Cart :=
  match d with
  | .absent =>
    ({ doc := d, writeAttempts := 0, threw := false, logged := false },
     emptyCart)
  | .empty =>
    ({ doc := d, writeAttempts := 0, threw := false, logged := false },
     emptyCart)
  | .garbage =>
    ({ doc := d, writeAttempts := 0, threw := false, logged := true },
     emptyCart)
  | .stored cart =>
    ({ doc := d, writeAttempts := 0, threw := false, logged := false },
     cart)

/-! ### Operation sequences -/

/-- One call against the store, with the outcome fate of its write call. -/
inductive Op where
  | add (id productPrice : ℚ) (wr : WriteResult) : Op
  | del (id productPrice : ℚ) (wr : WriteResult) : Op
  | get : Op
deriving DecidableEq

/-- The file state after one call. -/
def stepDoc : Op → Doc → Doc
  | .add id price wr, d => (addProductOp id price d wr).doc
  | .del id price wr, d => (deleteProductOp id price d wr).doc
  | .get, d => (getCartOp d).1.doc

/-- The observable outcome of one call. -/
def stepOutcome : Op → Doc → Outcome
  | .add id price wr, d => addProductOp id price d wr
  | .del id price wr, d => deleteProductOp id price d wr
  | .get, d => (getCartOp d).1

/-- The file state after a sequence of calls (each call completes before the
next starts; the store issues no concurrent access). -/
def runOps : List Op → Doc → Doc
  | [], d => d
  | op :: rest, d => runOps rest (stepDoc op d)

/-! ### The JSON document itself

For the round-trip property the serialized document is modelled one level
deeper, as a JSON value tree, so that the irrelevance of the field order in
the serialized object can be stated: JS property access on the object
returned by `JSON.parse` looks fields up by name, not by position. -/

/-- A JSON value. -/
inductive Json where
  | null : Json
  | num (q : ℚ) : Json
  | str (s : String) : Json
  | bool (b : Bool) : Json
  | arr (elems : List Json) : Json
  | obj (fields : List (String × Json)) : Json

/-- Property access on a parsed JSON value, by field name.  On duplicate
keys `JSON.parse` keeps the last occurrence, hence the reversed lookup;
access on a non-object yields `undefined` (`none`). -/
def Json.getField (j : Json) (name : String) : Option Json :=
  match j with
  | .obj fields => fields.reverse.lookup name
  | _ => none

/-- `JSON.stringify` of one product object: fields in insertion order. -/
def Product.toJson (p : Product) : Json :=
  .obj [("id", .num p.id), ("quantity", .num p.quantity)]

/-- `JSON.stringify` of a `totalPrice` value (`NaN` serializes as `null`). -/
def JsVal.toJson : JsVal → Json
  | .nan => .null
  | .null => .null
  | .num q => .num q

/-- The two fields of the serialized cart object, in the insertion order
`JSON.stringify` emits. -/
def cartFields (cart : Cart) : List (String × Json) :=
  [("products", .arr (cart.products.map Product.toJson)),
   ("totalPrice", cart.totalPrice.toJson)]

/-- `JSON.stringify` of the whole cart document. -/
def Cart.toJson (cart : Cart) : Json := .obj (cartFields cart)

/-- Reading one product element back the way the consumers do: the `id` and
`quantity` properties, both expected to be numbers. -/
def parseProductJson (j : Json) : Option Product := do
  match (← j.getField "id"), (← j.getField "quantity") with
  | .num i, .num q => some { id := i, quantity := q }
  | _, _ => none

/-- Reading a list of product elements back, in order. -/
def parseProductsJson : List Json → Option (List Product)
  | [] => some []
  | j :: rest => do
    let p ← parseProductJson j
    let ps ← parseProductsJson rest
    some (p :: ps)

/-- Reading a parsed cart document back the way the consumers do: the
`products` property (an array of product objects) and the `totalPrice`
property (a number, or the `null` a serialized `NaN` became).  Only the
names of the fields matter, never their position in the document. -/
def parseCartJson (j : Json) : Option Cart := do
  match (← j.getField "products"), (← j.getField "totalPrice") with
  | .arr elems, .num q => do
    let ps ← parseProductsJson elems
    some { products := ps, totalPrice := .num q }
  | .arr elems, .null => do
    let ps ← parseProductsJson elems
    some { products := ps, totalPrice := .null }
  | _, _ => none

/-! ### Helper lemmas about the product-list update of addProduct -/

/-- Recursive characterization of the product-list update performed by
`addToCart` (proved equal to it in `addToCart_products`): walk to the first
product with the given id and bump its quantity, or push a fresh
`{id, quantity: 1}` at the end. -/
def addProducts (id : ℚ) : List Product → List Product
  | [] => [{ id := id, quantity := 1 }]
  | p :: rest =>
    if p.id == id then { p with quantity := p.quantity + 1 } :: rest
    else p :: addProducts id rest

theorem addToCart_products (id price : ℚ) (l : List Product) (t : JsVal) :
    (addToCart id price { products := l, totalPrice := t }).products
      = addProducts id l := by
  induction l with
  | nil => rfl
  | cons p rest ih =>
    by_cases h : (p.id == id) = true
    · simp only [addToCart, List.findIdx?_cons, h, if_pos, List.getElem?_cons_zero,
        addProducts]
      rfl
    · have h' : (p.id == id) = false := by simpa using h
      simp only [addProducts, h', Bool.false_eq_true, if_false]
      simp only [addToCart, List.findIdx?_cons, h', Bool.false_eq_true, if_false,
        List.findIdx?_succ] at ih ⊢
      cases hfi : rest.findIdx? (fun prod => prod.id == id) with
      | none =>
        simp only [hfi, Option.map_none'] at ih ⊢
        simp only [List.cons_append]
        rw [← ih]
      | some j =>
        simp only [hfi, Option.map_some'] at ih ⊢
        cases hgj : rest[j]? with
        | none =>
          simp only [hgj, List.getElem?_cons_succ] at ih ⊢
          simp only [List.cons_append]
          rw [← ih]
        | some ex =>
          simp only [hgj, List.getElem?_cons_succ, List.set_cons_succ] at ih ⊢
          rw [← ih]

theorem addToCart_totalPrice (id price : ℚ) (cart : Cart) :
    (addToCart id price cart).totalPrice
      = jsAdd cart.totalPrice (.num price) := by
  simp only [addToCart]
  cases hfi : cart.products.findIdx? (fun prod => prod.id == id) with
  | none => rfl
  | some i =>
    cases hgj : cart.products[i]? with
    | none => simp [hgj]
    | some ex => simp [hgj]

theorem addProducts_of_not_mem (id : ℚ) (l : List Product)
    (h : ∀ r ∈ l, ¬(r.id = id)) :
    addProducts id l = l ++ [{ id := id, quantity := 1 }] := by
  induction l with
  | nil => rfl
  | cons p rest ih =>
    have hp : (p.id == id) = false := by
      simpa using h p (List.mem_cons_self p rest)
    simp only [addProducts, hp, Bool.false_eq_true, if_false, List.cons_append]
    rw [ih fun r hr => h r (List.mem_cons_of_mem p hr)]

theorem addProducts_of_split (id : ℚ) (l₁ l₂ : List Product) (p : Product)
    (hp : p.id = id) (hleft : ∀ r ∈ l₁, ¬(r.id = id)) :
    addProducts id (l₁ ++ p :: l₂)
      = l₁ ++ { p with quantity := p.quantity + 1 } :: l₂ := by
  induction l₁ with
  | nil =>
    simp only [List.nil_append, addProducts, hp, beq_self_eq_true, if_pos]
  | cons r rest ih =>
    have hr : (r.id == id) = false := by
      simpa using hleft r (List.mem_cons_self r rest)
    simp only [List.cons_append, addProducts, hr, Bool.false_eq_true, if_false]
    exact congrArg (r :: ·) (ih fun x hx => hleft x (List.mem_cons_of_mem r hx))

theorem addProducts_map_id (id : ℚ) (l : List Product) :
    (addProducts id l).map Product.id
      = if l.any (fun r => r.id == id) then l.map Product.id
        else l.map Product.id ++ [id] := by
  induction l with
  | nil => rfl
  | cons p rest ih =>
    by_cases h : (p.id == id) = true
    · simp [addProducts, h]
    · have h' : (p.id == id) = false := by simpa using h
      simp [addProducts, h', ih]
      split <;> rfl

theorem addProducts_filter (id : ℚ) (l : List Product)
    (hnodup : (l.map Product.id).Nodup) :
    (addProducts id l).filter (fun r => r.id == id)
      = match l.filter (fun r => r.id == id) with
        | [] => [{ id := id, quantity := 1 }]
        | p :: _ => [{ id := id, quantity := p.quantity + 1 }] := by
  induction l with
  | nil => simp [addProducts]
  | cons p rest ih =>
    have hx : (∀ x ∈ rest, ¬x.id = p.id) ∧ (rest.map Product.id).Nodup := by
      simpa using hnodup
    by_cases h : (p.id == id) = true
    · have hp : p.id = id := by simpa using h
      have hrf : rest.filter (fun r => r.id == id) = [] := by
        rw [List.filter_eq_nil_iff]
        intro r hr hcon
        exact hx.1 r hr ((show r.id = id by simpa using hcon).trans hp.symm)
      simp [addProducts, h, List.filter_cons, hrf, hp]
    · have h' : (p.id == id) = false := by simpa using h
      simp only [addProducts, h', Bool.false_eq_true, if_false, List.filter_cons,
        h']
      exact ih hx.2

theorem addProducts_nodup (id : ℚ) (l : List Product)
    (hnodup : (l.map Product.id).Nodup) :
    ((addProducts id l).map Product.id).Nodup := by
  rw [addProducts_map_id]
  split
  · exact hnodup
  · rename_i h
    have hid : id ∉ l.map Product.id := by
      intro hmem
      apply h
      rcases List.mem_map.mp hmem with ⟨r, hr, hrid⟩
      exact List.any_eq_true.mpr ⟨r, hr, by simpa using hrid⟩
    simp [List.nodup_append, hnodup, hid]

/-! ### Helper lemmas about deleteProduct -/

theorem findIdx?_filter_ne (id : ℚ) (l : List Product) :
    (l.filter fun r => !(r.id == id)).findIdx? (fun prod => prod.id == id)
      = none := by
  rw [List.findIdx?_eq_none_iff]
  intro x hx
  simpa using (List.mem_filter.mp hx).2

theorem deleteFromCart_of_findIdx?_none (id price : ℚ) (cart : Cart)
    (h : cart.products.findIdx? (fun prod => prod.id == id) = none) :
    deleteFromCart id price cart = none := by
  simp [deleteFromCart, h]

theorem deleteFromCart_products (id price : ℚ) (cart cart' : Cart)
    (h : deleteFromCart id price cart = some cart') :
    cart'.products = cart.products.filter fun prod => !(prod.id == id) := by
  unfold deleteFromCart at h
  cases hfi : cart.products.findIdx? (fun prod => prod.id == id) with
  | none => rw [hfi] at h; exact absurd h (by simp)
  | some i =>
    rw [hfi] at h
    simp only [Option.some.injEq] at h
    rw [← h]

/-! ### Helper lemmas about the JSON layer -/

theorem parseProductJson_toJson (p : Product) :
    parseProductJson (Product.toJson p) = some p := rfl

theorem parseProductsJson_map (ps : List Product) :
    parseProductsJson (ps.map Product.toJson) = some ps := by
  induction ps with
  | nil => rfl
  | cons p rest ih =>
    simp [List.map_cons, parseProductsJson, parseProductJson_toJson, ih]

theorem perm_pair {α : Type} {l : List α} {a b : α} (h : l.Perm [a, b]) :
    l = [a, b] ∨ l = [b, a] := by
  rcases l with _ | ⟨x, _ | ⟨y, _ | ⟨z, t⟩⟩⟩
  · exact absurd h.length_eq (by simp)
  · exact absurd h.length_eq (by simp)
  · rcases List.mem_pair.mp (h.subset (List.mem_cons_self x [y])) with rfl | rfl
    · have h2 : [y] = [b] := List.perm_singleton.mp h.cons_inv
      injection h2 with h3
      subst h3
      exact Or.inl rfl
    · have h2 : [y] = [a] :=
        List.perm_singleton.mp (h.trans (List.Perm.swap x a [])).cons_inv
      injection h2 with h3
      subst h3
      exact Or.inr rfl
  · exact absurd h.length_eq (by simp)

theorem getField_pair_first (name₁ name₂ : String) (v₁ v₂ : Json)
    (hne : (name₁ == name₂) = false) :
    (Json.obj [(name₁, v₁), (name₂, v₂)]).getField name₁ = some v₁ := by
  simp [Json.getField, List.lookup, hne]

theorem getField_pair_second (name₁ name₂ : String) (v₁ v₂ : Json) :
    (Json.obj [(name₁, v₁), (name₂, v₂)]).getField name₂ = some v₂ := by
  simp [Json.getField, List.lookup]

theorem parseCartJson_products_first (ps : List Product) (q : ℚ) :
    parseCartJson (Json.obj
        [("products", .arr (ps.map Product.toJson)), ("totalPrice", .num q)])
      = some { products := ps, totalPrice := .num q } := by
  have h1 := getField_pair_first "products" "totalPrice"
    (.arr (ps.map Product.toJson)) (.num q) (by decide)
  have h2 := getField_pair_second "products" "totalPrice"
    (.arr (ps.map Product.toJson)) (.num q)
  simp [parseCartJson, h1, h2, parseProductsJson_map]

theorem parseCartJson_products_second (ps : List Product) (q : ℚ) :
    parseCartJson (Json.obj
        [("totalPrice", .num q), ("products", .arr (ps.map Product.toJson))])
      = some { products := ps, totalPrice := .num q } := by
  have h1 := getField_pair_second "totalPrice" "products"
    (.num q) (.arr (ps.map Product.toJson))
  have h2 := getField_pair_first "totalPrice" "products"
    (.num q) (.arr (ps.map Product.toJson)) (by decide)
  simp [parseCartJson, h1, h2, parseProductsJson_map]

theorem addToCart_products' (id price : ℚ) (cart : Cart) :
    (addToCart id price cart).products = addProducts id cart.products := by
  obtain ⟨l, t⟩ := cart
  exact addToCart_products id price l t

/-! ### The claims -/

set_option maxRecDepth 10000

/-- C1: the spec's example scenario.  The two appends behave exactly as
claimed (one record `{id: 101, quantity: 1}` with totalPrice 9.99, then
quantity 2 with totalPrice 19.98), but the removal does NOT leave
totalPrice = 0: `deleteProduct` reads the nonexistent `qty` field of the
product (the field is called `quantity`), so it subtracts
`9.99 * undefined = NaN`, and the stored totalPrice becomes `NaN`
(serialized as `null`), not `0`.  The aggregate-consistency claim therefore
fails at this very input; the theorem evaluates the code on it. -/
theorem claim_C1_scenario_aggregate_bug :
    runOps [Op.add 101 (999/100) .ok] Doc.absent
      = Doc.stored { products := [{ id := 101, quantity := 1 }],
                     totalPrice := JsVal.num (999/100) }
  ∧ runOps [Op.add 101 (999/100) .ok, Op.add 101 (999/100) .ok] Doc.absent
      = Doc.stored { products := [{ id := 101, quantity := 2 }],
                     totalPrice := JsVal.num (1998/100) }
  ∧ runOps [Op.add 101 (999/100) .ok, Op.add 101 (999/100) .ok,
            Op.del 101 (999/100) .ok] Doc.absent
      = Doc.stored { products := [], totalPrice := JsVal.null }
  ∧ (getCartOp (runOps [Op.add 101 (999/100) .ok, Op.add 101 (999/100) .ok,
        Op.del 101 (999/100) .ok] Doc.absent)).2.totalPrice
      ≠ JsVal.num 0 := by
  with_unfolding_all decide

/-- C2: appending to a RecordSet whose keys are unique yields exactly one
record with the given key - its quantity is the prior quantity + 1 when the
key was present, and 1 when it was not - and the result's keys are again
unique. -/
theorem claim_C2_append_key_invariant (id price : ℚ) (cart : Cart)
    (hnodup : (cart.products.map Product.id).Nodup) :
    ((addToCart id price cart).products.map Product.id).Nodup
  ∧ (addToCart id price cart).products.filter (fun r => r.id == id)
      = match cart.products.filter (fun r => r.id == id) with
        | [] => [{ id := id, quantity := 1 }]
        | p :: _ => [{ id := id, quantity := p.quantity + 1 }] := by
  rw [addToCart_products']
  exact ⟨addProducts_nodup id cart.products hnodup,
         addProducts_filter id cart.products hnodup⟩

theorem claim_C2_witness :
    ((addToCart 101 (999/100)
        { products := [{ id := 7, quantity := 5 }, { id := 101, quantity := 2 }],
          totalPrice := JsVal.num 0 }).products.map Product.id).Nodup
  ∧ (addToCart 101 (999/100)
        { products := [{ id := 7, quantity := 5 }, { id := 101, quantity := 2 }],
          totalPrice := JsVal.num 0 }).products.filter (fun r => r.id == 101)
      = [{ id := 101, quantity := 3 }] :=
  have h := claim_C2_append_key_invariant 101 (999/100)
    { products := [{ id := 7, quantity := 5 }, { id := 101, quantity := 2 }],
      totalPrice := JsVal.num 0 }
    (by with_unfolding_all decide)
  ⟨h.1, h.2.trans (by with_unfolding_all decide)⟩

/-- C3: remove is idempotent - removing the same key twice leaves the stored
document exactly as removing it once does - and removing a key that is not
present is a silent no-op: no write, no exception, no log. -/
theorem claim_C3_remove_idempotent (id price : ℚ) (d : Doc) (cart : Cart)
    (hnot : ∀ r ∈ cart.products, ¬(r.id = id)) :
    (deleteProductOp id price (deleteProductOp id price d .ok).doc .ok).doc
      = (deleteProductOp id price d .ok).doc
  ∧ deleteProductOp id price (Doc.stored cart) .ok
      = { doc := Doc.stored cart, writeAttempts := 0, threw := false,
          logged := false } := by
  constructor
  · cases d with
    | absent => rfl
    | empty => rfl
    | garbage => rfl
    | stored c =>
      cases hdel : deleteFromCart id price c with
      | none => simp [deleteProductOp, hdel]
      | some c' =>
        have hflt := deleteFromCart_products id price c c' hdel
        have hnone : deleteFromCart id price
            { c' with totalPrice := c'.totalPrice.serialize } = none := by
          apply deleteFromCart_of_findIdx?_none
          show c'.products.findIdx? (fun prod => prod.id == id) = none
          rw [hflt]
          exact findIdx?_filter_ne id c.products
        simp [deleteProductOp, hdel, writeCart, hnone]
  · have hnone : cart.products.findIdx? (fun prod => prod.id == id) = none := by
      rw [List.findIdx?_eq_none_iff]
      intro x hx
      simpa using hnot x hx
    simp [deleteProductOp, deleteFromCart_of_findIdx?_none id price cart hnone]

theorem claim_C3_witness :
    (deleteProductOp 101 (999/100)
        (deleteProductOp 101 (999/100)
          (Doc.stored { products := [{ id := 101, quantity := 2 }],
                        totalPrice := JsVal.num 5 }) .ok).doc .ok).doc
      = (deleteProductOp 101 (999/100)
          (Doc.stored { products := [{ id := 101, quantity := 2 }],
                        totalPrice := JsVal.num 5 }) .ok).doc
  ∧ deleteProductOp 101 (999/100)
        (Doc.stored { products := [{ id := 7, quantity := 1 }],
                      totalPrice := JsVal.num 0 }) .ok
      = { doc := Doc.stored { products := [{ id := 7, quantity := 1 }],
                              totalPrice := JsVal.num 0 },
          writeAttempts := 0, threw := false, logged := false } :=
  claim_C3_remove_idempotent 101 (999/100)
    (Doc.stored { products := [{ id := 101, quantity := 2 }],
                  totalPrice := JsVal.num 5 })
    { products := [{ id := 7, quantity := 1 }], totalPrice := JsVal.num 0 }
    (by with_unfolding_all decide)

/-- C4: loading against a document that does not exist, or that exists but
is empty, delivers the empty RecordSet `{products: [], totalPrice: 0}` to
the callback, with no exception: a missing store reads as an empty store. -/
theorem claim_C4_missing_store_as_empty :
    getCartOp Doc.absent
      = ({ doc := Doc.absent, writeAttempts := 0, threw := false,
           logged := false }, emptyCart)
  ∧ getCartOp Doc.empty
      = ({ doc := Doc.empty, writeAttempts := 0, threw := false,
           logged := false }, emptyCart)
  ∧ emptyCart = { products := [], totalPrice := JsVal.num 0 } :=
  ⟨rfl, rfl, rfl⟩

/-- C5, counterexample: the claim says every operation that reads the
document recovers a parse failure silently and never throws - but
`deleteProduct` does not guard its `JSON.parse`, so on an unparsable
document the remove operation raises an uncaught exception. -/
theorem claim_C5_counterexample :
    (deleteProductOp 101 (999/100) Doc.garbage .ok).threw = true := rfl

/-- C5, amended: `addProduct` and `getCart` recover a parse failure
silently - they log, proceed as if the store were empty, and never throw -
but `deleteProduct` does not catch it: an unparsable document makes the
remove operation throw before any write, leaving the document untouched. -/
theorem claim_C5_parse_failure_recovery (id price : ℚ) (d : Doc)
    (wr : WriteResult) :
    (addProductOp id price d wr).threw = false
  ∧ (getCartOp d).1.threw = false
  ∧ (addProductOp id price Doc.garbage .ok).doc
      = (addProductOp id price Doc.empty .ok).doc
  ∧ (addProductOp id price Doc.garbage .ok).logged = true
  ∧ (getCartOp Doc.garbage).1.logged = true
  ∧ (getCartOp Doc.garbage).2 = emptyCart
  ∧ (deleteProductOp id price Doc.garbage wr).threw = true
  ∧ (deleteProductOp id price Doc.garbage wr).writeAttempts = 0
  ∧ (deleteProductOp id price Doc.garbage wr).doc = Doc.garbage := by
  cases d <;> cases wr <;>
    exact ⟨rfl, rfl, rfl, rfl, rfl, rfl, rfl, rfl, rfl⟩

/-- C6: a failure of the underlying file write is only logged and never
surfaced: for both mutating operations the caller-observable outcome (no
exception, void return) is identical whether the write succeeded or failed,
and the operation issues at most one write (no retry). -/
theorem claim_C6_write_failure_swallowed (id price : ℚ) (d : Doc) :
    (addProductOp id price d .failed).threw = (addProductOp id price d .ok).threw
  ∧ (addProductOp id price d .failed).threw = false
  ∧ (addProductOp id price d .failed).writeAttempts
      = (addProductOp id price d .ok).writeAttempts
  ∧ (addProductOp id price d .failed).writeAttempts ≤ 1
  ∧ (addProductOp id price d .failed).logged = true
  ∧ (deleteProductOp id price d .failed).threw
      = (deleteProductOp id price d .ok).threw
  ∧ (deleteProductOp id price d .failed).writeAttempts
      = (deleteProductOp id price d .ok).writeAttempts
  ∧ (deleteProductOp id price d .failed).writeAttempts ≤ 1 := by
  cases d with
  | absent =>
    exact ⟨rfl, rfl, rfl, Nat.le_refl 1, rfl, rfl, rfl, Nat.zero_le 1⟩
  | empty =>
    exact ⟨rfl, rfl, rfl, Nat.le_refl 1, rfl, rfl, rfl, Nat.zero_le 1⟩
  | garbage =>
    exact ⟨rfl, rfl, rfl, Nat.le_refl 1, rfl, rfl, rfl, Nat.zero_le 1⟩
  | stored cart =>
    cases hdel : deleteFromCart id price cart with
    | none =>
      simp [addProductOp, deleteProductOp, hdel]
    | some c' =>
      simp [addProductOp, deleteProductOp, hdel]

/-- C7: round-trip - serializing a valid RecordSet (unique keys are not even
needed; a finite numeric totalPrice is) and loading it back reproduces it
exactly, and parsing is insensitive to the order of the fields in the
serialized document. -/
theorem claim_C7_round_trip (cart : Cart) (q : ℚ)
    (hq : cart.totalPrice = JsVal.num q) (fs : List (String × Json))
    (hfs : fs.Perm (cartFields cart)) :
    (getCartOp (writeCart cart)).2 = cart
  ∧ parseCartJson (Cart.toJson cart) = some cart
  ∧ parseCartJson (Json.obj fs) = some cart := by
  obtain ⟨ps, t⟩ := cart
  have ht : t = JsVal.num q := hq
  subst ht
  refine ⟨rfl, parseCartJson_products_first ps q, ?_⟩
  rcases perm_pair hfs with rfl | rfl
  · exact parseCartJson_products_first ps q
  · exact parseCartJson_products_second ps q

theorem claim_C7_witness :
    parseCartJson (Json.obj
        [("totalPrice", Json.num (999/100)),
         ("products", Json.arr
            [Json.obj [("id", Json.num 101), ("quantity", Json.num 1)]])])
      = some { products := [{ id := 101, quantity := 1 }],
               totalPrice := JsVal.num (999/100) }
  ∧ (getCartOp (writeCart
        { products := [{ id := 101, quantity := 1 }],
          totalPrice := JsVal.num (999/100) })).2
      = { products := [{ id := 101, quantity := 1 }],
          totalPrice := JsVal.num (999/100) } :=
  have h := claim_C7_round_trip
    { products := [{ id := 101, quantity := 1 }],
      totalPrice := JsVal.num (999/100) }
    (999/100) rfl
    [("totalPrice", Json.num (999/100)),
     ("products", Json.arr
        [Json.obj [("id", Json.num 101), ("quantity", Json.num 1)]])]
    (List.Perm.swap _ _ [])
  ⟨h.2.2, h.1⟩

/-- C8: the store is stateless between calls - the observable outcome of
any operation is a function of the current document content and the
operation's own arguments alone, so two call histories that leave the same
document are indistinguishable to the next call; and a mutating call is one
complete read-mutate-write cycle over the whole document (shown here for
`addProduct`: its outcome is exactly the full rewrite of the cart computed
from the single read). -/
theorem claim_C8_stateless (ops₁ ops₂ : List Op) (d₁ d₂ : Doc) (op : Op)
    (id price : ℚ) (h : runOps ops₁ d₁ = runOps ops₂ d₂) :
    stepOutcome op (runOps ops₁ d₁) = stepOutcome op (runOps ops₂ d₂)
  ∧ addProductOp id price (runOps ops₁ d₁) .ok
      = { doc := writeCart (addToCart id price
                    (readCartLenient (runOps ops₁ d₁))),
          writeAttempts := 1, threw := false,
          logged := parseFailed (runOps ops₁ d₁) } :=
  ⟨by rw [h], rfl⟩

theorem claim_C8_witness :
    stepOutcome (Op.del 101 (999/100) .ok) (runOps [Op.get] Doc.empty)
      = stepOutcome (Op.del 101 (999/100) .ok) (runOps [] Doc.empty)
  ∧ addProductOp 5 2 (runOps [Op.get] Doc.empty) .ok
      = { doc := writeCart (addToCart 5 2
                    (readCartLenient (runOps [Op.get] Doc.empty))),
          writeAttempts := 1, threw := false,
          logged := parseFailed (runOps [Op.get] Doc.empty) } :=
  claim_C8_stateless [Op.get] [] Doc.empty Doc.empty
    (Op.del 101 (999/100) .ok) 5 2 rfl

/-- C9: the read path never touches the filesystem's state - for every
state of the backing document, `getCart` issues no write and leaves the
document exactly as it was. -/
theorem claim_C9_read_path_pure (d : Doc) :
    (getCartOp d).1.doc = d ∧ (getCartOp d).1.writeAttempts = 0 := by
  cases d <;> exact ⟨rfl, rfl⟩

/-- C10: append only touches the record it targets.  When the key exists,
the products list changes only at the (first) record with that key, whose
quantity is bumped with the id untouched, with every other record and the
order unchanged; when the key is new, the fresh record `{id, quantity: 1}`
is appended at the end after all the existing records in their original
order. -/
theorem claim_C10_append_frame (id price : ℚ) (cart : Cart)
    (l₁ l₂ : List Product) (p : Product)
    (hsplit : cart.products = l₁ ++ p :: l₂) (hp : p.id = id)
    (hleft : ∀ r ∈ l₁, ¬(r.id = id)) :
    (addToCart id price cart).products
      = l₁ ++ { p with quantity := p.quantity + 1 } :: l₂
  ∧ ∀ cart' : Cart, (∀ r ∈ cart'.products, ¬(r.id = id)) →
      (addToCart id price cart').products
        = cart'.products ++ [{ id := id, quantity := 1 }] := by
  constructor
  · rw [addToCart_products', hsplit]
    exact addProducts_of_split id l₁ l₂ p hp hleft
  · intro cart' h'
    rw [addToCart_products']
    exact addProducts_of_not_mem id cart'.products h'

theorem claim_C10_witness :
    (addToCart 101 2
        { products := [{ id := 7, quantity := 5 }, { id := 101, quantity := 2 },
                       { id := 9, quantity := 1 }],
          totalPrice := JsVal.num 0 }).products
      = [{ id := 7, quantity := 5 }, { id := 101, quantity := 3 },
         { id := 9, quantity := 1 }]
  ∧ (addToCart 101 2
        { products := [{ id := 7, quantity := 5 }],
          totalPrice := JsVal.num 0 }).products
      = [{ id := 7, quantity := 5 }, { id := 101, quantity := 1 }] :=
  have h := claim_C10_append_frame 101 2
    { products := [{ id := 7, quantity := 5 }, { id := 101, quantity := 2 },
                   { id := 9, quantity := 1 }],
      totalPrice := JsVal.num 0 }
    [{ id := 7, quantity := 5 }] [{ id := 9, quantity := 1 }]
    { id := 101, quantity := 2 } rfl rfl (by with_unfolding_all decide)
  ⟨h.1.trans (by with_unfolding_all decide),
   (h.2 { products := [{ id := 7, quantity := 5 }], totalPrice := JsVal.num 0 }
      (by with_unfolding_all decide)).trans (by with_unfolding_all decide)⟩

end MernCart
